import Mathlib

/-!
Shallow embedding of the overlay application (src/main.rs) and proofs of the
specified properties of its window-lifecycle state machine.

The program is an event-driven overlay: an `Application` owns an icon, a
registry `HashMap<WindowId, WindowState>`, and an optional softbuffer
`Context`.  External collaborators (winit window creation, cursor hit-test
toggling, softbuffer surface creation/resizing/drawing) are modelled as
oracle inputs: each fallible external call is a field of an environment
record holding the `Result` that call produced.  Rust panics (from
`.expect`/`.unwrap`) are modelled as a distinct `Outcome.panic` constructor,
separate from `Outcome.err` (a `Result::Err` returned to the caller).
-/

namespace Overlay

/-- Window identifiers are opaque values handed out by the windowing
collaborator; we model them as naturals. -/
abbrev WindowId := Nat

/-- Error values (`Box<dyn Error>` in the source) are modelled by their
message strings. -/
abbrev ErrMsg := String

/-- Outcome of a Rust call that can return normally, return `Err`, or panic
(via `unwrap`/`expect`).  A panic aborts the process; an `err` is a value
handed to the caller. -/
inductive Outcome (α : Type) where
  | ok : α → Outcome α
  | err : ErrMsg → Outcome α
  | panic : ErrMsg → Outcome α
deriving Repr, DecidableEq

/-- Whether an outcome is a returned error (`Result::Err`), as opposed to a
normal return or a panic. -/
def Outcome.isErr {α : Type} : Outcome α → Bool
  | .err _ => true
  | _ => false

/-- A winit `Window`: its id and the physical size reported by
`inner_size()` (src/main.rs:263-265).  Only these observations of the
window are used by the program. -/
structure Window where
  id : WindowId
  innerWidth : Nat
  innerHeight : Nat
deriving Repr, DecidableEq

/-- The softbuffer drawing context (opaque handle). -/
structure Context where
  token : Nat
deriving Repr, DecidableEq

/-- A softbuffer `Surface` bound to a window (opaque handle). -/
structure Surface where
  token : Nat
deriving Repr, DecidableEq

/-- The application icon (opaque decoded pixel data). -/
structure Icon where
  token : Nat
deriving Repr, DecidableEq

/-- `WindowState` (src/main.rs:246-253): the render surface plus the window
it presents to. -/
structure WindowState where
  surface : Surface
  window : Window
deriving Repr, DecidableEq

/-- Registry lookup, mirroring `HashMap::get`/`get_mut` on the
`WindowId → WindowState` map. -/
def mapLookup (m : List (WindowId × WindowState)) (k : WindowId) :
    Option WindowState :=
  match m with
  | [] => none
  | (k2, v) :: rest => if k2 = k then some v else mapLookup rest k

/-- Registry removal, mirroring `HashMap::remove`. -/
def mapRemove (m : List (WindowId × WindowState)) (k : WindowId) :
    List (WindowId × WindowState) :=
  m.filter (fun p => p.1 ≠ k)

/-- Registry insertion, mirroring `HashMap::insert` (replaces any existing
entry for the key). -/
def mapInsert (m : List (WindowId × WindowState)) (k : WindowId)
    (v : WindowState) : List (WindowId × WindowState) :=
  (k, v) :: mapRemove m k

/-- `Application` (src/main.rs:52-59): icon, window registry, and the
optional shared drawing context. -/
structure Application where
  icon : Icon
  windows : List (WindowId × WindowState)
  context : Option Context
deriving Repr, DecidableEq

/-- `UserEvent` (src/main.rs:47-49). -/
inductive UserEvent where
  | wakeUp : UserEvent
deriving Repr, DecidableEq

/-- Mouse-wheel delta (payload only logged, so modelled opaquely by a tag). -/
inductive MouseScrollDelta where
  | lineDelta : Nat → Nat → MouseScrollDelta
  | pixelDelta : Nat → Nat → MouseScrollDelta
deriving Repr, DecidableEq

/-- The window events the handler distinguishes (src/main.rs:177-211); all
variants it does not match fall into `other`. -/
inductive WindowEvent where
  | focused : Bool → WindowEvent
  | redrawRequested : WindowEvent
  | closeRequested : WindowEvent
  | mouseWheel : MouseScrollDelta → WindowEvent
  | keyboardInput : Bool → WindowEvent
  | other : WindowEvent
deriving Repr, DecidableEq

/-- Oracle for the external calls made during `create_window` and
`WindowState::new`: the results of `event_loop.create_window`,
`window.set_cursor_hittest(false)`, `Surface::new`, and `surface.resize`. -/
structure CreateWindowEnv where
  createWindowResult : Except ErrMsg Window
  setCursorHittestResult : Except ErrMsg Unit
  surfaceNewResult : Except ErrMsg Surface
  surfaceResizeResult : Except ErrMsg Unit

/-- `WindowState::new` (src/main.rs:256-286): binds a surface to the window
via the application's context (`app.context.as_ref().unwrap()` — panics if
the context is gone), fails with "Failed to resize inner buffer" if either
inner dimension is zero, then calls `surface.resize` and DISCARDS its
`Result` (src/main.rs:275-277). -/
def WindowState.new (env : CreateWindowEnv) (app : Application)
    (window : Window) : Outcome WindowState :=
  match app.context with
  | none => .panic "called Option::unwrap on a None value"
  | some _ =>
    match env.surfaceNewResult with
    | .error e => .err e
    | .ok surface =>
      if window.innerWidth = 0 ∨ window.innerHeight = 0 then
        .err "Failed to resize inner buffer"
      else
        match env.surfaceResizeResult with
        | .error _ => .ok { surface := surface, window := window }
        | .ok _ => .ok { surface := surface, window := window }

/-- `Application::create_window` (src/main.rs:88-113): asks the event loop
for a window, panics via `.expect` if disabling the cursor hit test fails,
builds the `WindowState` (propagating its error with `?`), and on success
inserts the record keyed by the window's id.  Returns the (possibly
updated) state together with the call's outcome; the registry is mutated
only on the `ok` path. -/
def Application.create_window (app : Application) (env : CreateWindowEnv) :
    Application × Outcome WindowId :=
  match env.createWindowResult with
  | .error e => (app, .err e)
  | .ok window =>
    match env.setCursorHittestResult with
    | .error _ => (app, .panic "Failed to disable cursor hit test")
    | .ok _ =>
      match WindowState.new env app window with
      | .panic m => (app, .panic m)
      | .err e => (app, .err e)
      | .ok windowState =>
        let windowId := windowState.window.id
        ({ app with windows := mapInsert app.windows windowId windowState },
         .ok windowId)

/-- `Application::user_event` (src/main.rs:162-164): logs the event, no
state change. -/
def Application.user_event (app : Application) (_event : UserEvent) :
    Application :=
  app

/-- Oracle for the external calls made while handling a window event: the
result of `WindowState::draw` for the targeted window. -/
structure WindowEventEnv where
  drawResult : Except ErrMsg Unit

/-- `Application::window_event` (src/main.rs:166-212): looks up the record;
absent ids are silently ignored.  Focus/scroll/keyboard events only log;
`RedrawRequested` runs `draw` and logs a failure; `CloseRequested` removes
the record from the registry. -/
def Application.window_event (app : Application) (env : WindowEventEnv)
    (window_id : WindowId) (event : WindowEvent) : Application :=
  match mapLookup app.windows window_id with
  | none => app
  | some _window =>
    match event with
    | .focused _ => app
    | .redrawRequested =>
      match env.drawResult with
      | .error _ => app
      | .ok _ => app
    | .closeRequested => { app with windows := mapRemove app.windows window_id }
    | .mouseWheel _ => app
    | .keyboardInput false => app
    | _ => app

/-- `Application::device_event` (src/main.rs:214-221): logs only. -/
def Application.device_event (app : Application) : Application :=
  app

/-- `Application::resumed` (src/main.rs:223-230): dumps monitor info (log
only) and creates the initial window, escalating any returned error to a
panic via `.expect("failed to create initial window")`. -/
def Application.resumed (app : Application) (env : CreateWindowEnv) :
    Outcome Application :=
  match app.create_window env with
  | (app2, .ok _) => .ok app2
  | (_, .err _) => .panic "failed to create initial window"
  | (_, .panic m) => .panic m

/-- `Application::about_to_wait` (src/main.rs:232-237): if the registry is
empty, request loop exit.  Returns the (unchanged) state and whether
`event_loop.exit()` was called. -/
def Application.about_to_wait (app : Application) : Application × Bool :=
  if app.windows.isEmpty then (app, true) else (app, false)

/-- `Application::exiting` (src/main.rs:239-242): drops the drawing
context. -/
def Application.exiting (app : Application) : Application :=
  { app with context := none }

/-- `Application::new` (src/main.rs:62-86): acquires the context (modelled
as already obtained — on failure the constructor unwraps and the process
never reaches a state), loads the icon, and starts with an empty
registry. -/
def Application.construct (ctx : Context) (icon : Icon) : Application :=
  { icon := icon, windows := [], context := some ctx }

/-- A state of the driven event loop: the application plus the loop
driver's bookkeeping — whether `exit()` has been requested and whether the
`exiting` callback has run. -/
structure LoopState where
  app : Application
  exitRequested : Bool
  exited : Bool

/-- One invocation of an `ApplicationHandler` callback by the event-loop
driver.  The driver (winit, an external collaborator) delivers
`resumed`/`window_event`/`user_event`/`device_event`/`about_to_wait` only
while exit has not been requested, and calls `exiting` exactly once after
exit has been requested, before the loop stops.  A panicking callback
aborts the process, so panicking invocations produce no successor state. -/
inductive Step : LoopState → LoopState → Prop where
  | resumed (s : LoopState) (env : CreateWindowEnv) (app2 : Application)
      (hex : s.exited = false) (hreq : s.exitRequested = false)
      (h : s.app.resumed env = Outcome.ok app2) :
      Step s ⟨app2, false, false⟩
  | windowEvent (s : LoopState) (env : WindowEventEnv) (wid : WindowId)
      (ev : WindowEvent)
      (hex : s.exited = false) (hreq : s.exitRequested = false) :
      Step s ⟨s.app.window_event env wid ev, false, false⟩
  | userEvent (s : LoopState) (ev : UserEvent)
      (hex : s.exited = false) (hreq : s.exitRequested = false) :
      Step s ⟨s.app.user_event ev, false, false⟩
  | deviceEvent (s : LoopState)
      (hex : s.exited = false) (hreq : s.exitRequested = false) :
      Step s ⟨s.app.device_event, false, false⟩
  | aboutToWait (s : LoopState)
      (hex : s.exited = false) (hreq : s.exitRequested = false) :
      Step s ⟨(s.app.about_to_wait).1, (s.app.about_to_wait).2, false⟩
  | exiting (s : LoopState)
      (hex : s.exited = false) (hreq : s.exitRequested = true) :
      Step s ⟨s.app.exiting, true, true⟩

/-- States reachable from a freshly constructed application (any context
and icon) under the driver's callback discipline. -/
inductive Reachable : LoopState → Prop where
  | init (ctx : Context) (icon : Icon) :
      Reachable ⟨Application.construct ctx icon, false, false⟩
  | step {s t : LoopState} : Reachable s → Step s t → Reachable t

/-- Concrete fixture: an icon value. -/
def icon0 : Icon := ⟨0⟩

/-- Concrete fixture: a drawing context. -/
def ctx0 : Context := ⟨0⟩

/-- Concrete fixture: a surface handle. -/
def srf1 : Surface := ⟨7⟩

/-- Concrete fixture: a window with id 1 and nonzero inner size. -/
def win1 : Window := ⟨1, 10, 20⟩

/-- Concrete fixture: a window with id 2 whose inner width is zero. -/
def win0sz : Window := ⟨2, 0, 20⟩

/-- Concrete fixture: the record for `win1`. -/
def ws1 : WindowState := ⟨srf1, win1⟩

/-- Concrete fixture: a freshly constructed application (empty registry,
live context). -/
def app0 : Application := ⟨icon0, [], some ctx0⟩

/-- Concrete fixture: an application holding one window record. -/
def app1w : Application := ⟨icon0, [(1, ws1)], some ctx0⟩

/-- Concrete fixture: every external call during window creation
succeeds. -/
def cenvOk : CreateWindowEnv :=
  ⟨Except.ok win1, Except.ok (), Except.ok srf1, Except.ok ()⟩

/-- Concrete fixture: creation succeeds but the created window has a
zero inner width. -/
def cenvZero : CreateWindowEnv :=
  ⟨Except.ok win0sz, Except.ok (), Except.ok srf1, Except.ok ()⟩

/-- Concrete fixture: disabling the cursor hit test fails. -/
def cenvHitFail : CreateWindowEnv :=
  ⟨Except.ok win1, Except.error "hit test rejected", Except.ok srf1,
   Except.ok ()⟩

/-- Concrete fixture: window creation succeeds but the surface resize
call fails. -/
def cenvResizeFail : CreateWindowEnv :=
  ⟨Except.ok win1, Except.ok (), Except.ok srf1,
   Except.error "resize rejected"⟩

/-- Concrete fixture: drawing succeeds. -/
def wenvOk : WindowEventEnv := ⟨Except.ok ()⟩

/-- Concrete fixture: drawing fails (buffer acquisition or present
rejected). -/
def wenvFail : WindowEventEnv := ⟨Except.error "present rejected"⟩

/-- Concrete fixture: the initial loop state over `app0`'s data. -/
def loop0 : LoopState := ⟨Application.construct ctx0 icon0, false, false⟩

/-! Helper lemmas about the registry operations. -/

/-- Removing a key that is not in the registry changes nothing. -/
theorem mapRemove_of_lookup_none {m : List (WindowId × WindowState)}
    {k : WindowId} (h : mapLookup m k = none) : mapRemove m k = m := by
  induction m with
  | nil => rfl
  | cons p rest ih =>
    obtain ⟨k2, v⟩ := p
    simp only [mapLookup] at h
    by_cases hk : k2 = k
    · rw [if_pos hk] at h
      exact absurd h (by simp)
    · rw [if_neg hk] at h
      rw [mapRemove, List.filter_cons, if_pos (by simp [hk])]
      exact congrArg (fun l => (k2, v) :: l) (ih h)

/-- Removing a key then looking it up yields nothing. -/
theorem mapLookup_mapRemove_self (m : List (WindowId × WindowState))
    (k : WindowId) : mapLookup (mapRemove m k) k = none := by
  induction m with
  | nil => rfl
  | cons p rest ih =>
    obtain ⟨k2, v⟩ := p
    by_cases hk : k2 = k
    · simpa [mapRemove, List.filter_cons, hk] using ih
    · simpa [mapRemove, List.filter_cons, hk, mapLookup] using ih

/-- Removing the key of a just-pushed entry removes only that entry. -/
theorem mapRemove_cons_self (m : List (WindowId × WindowState))
    (k : WindowId) (v : WindowState) :
    mapRemove ((k, v) :: m) k = mapRemove m k := by
  simp [mapRemove, List.filter_cons]

/-- A looked-up key survives removal of a different key. -/
theorem mapLookup_mapRemove_ne (m : List (WindowId × WindowState))
    (k k2 : WindowId) (h : k2 ≠ k) :
    mapLookup (mapRemove m k) k2 = mapLookup m k2 := by
  induction m with
  | nil => rfl
  | cons p rest ih =>
    obtain ⟨k3, v⟩ := p
    by_cases hk : k3 = k
    · have hne : ¬k3 = k2 := fun he => h (he ▸ hk)
      rw [mapRemove, List.filter_cons, if_neg (by simp [hk])]
      rw [show mapLookup ((k3, v) :: rest) k2 = mapLookup rest k2 from by
        simp [mapLookup, hne]]
      exact ih
    · rw [mapRemove, List.filter_cons, if_pos (by simp [hk])]
      by_cases hk2 : k3 = k2
      · simp [mapLookup, hk2]
      · simp only [mapLookup, if_neg hk2]
        exact ih

/-- Window events addressed to an id missing from the registry are
dropped before any dispatch. -/
theorem window_event_absent (app : Application) (env : WindowEventEnv)
    (wid : WindowId) (ev : WindowEvent)
    (h : mapLookup app.windows wid = none) :
    app.window_event env wid ev = app := by
  unfold Application.window_event
  rw [h]

/-- Handling a close-requested event replaces the registry by the
removal of the addressed id and touches nothing else. -/
theorem window_event_close_eq (app : Application) (env : WindowEventEnv)
    (wid : WindowId) :
    app.window_event env wid WindowEvent.closeRequested
      = { app with windows := mapRemove app.windows wid } := by
  unfold Application.window_event
  cases hl : mapLookup app.windows wid with
  | none => rw [mapRemove_of_lookup_none hl]
  | some ws => rfl

/-- The create-window path never touches the icon or the context slot. -/
theorem create_window_preserves (app : Application) (env : CreateWindowEnv) :
    (app.create_window env).1.context = app.context ∧
    (app.create_window env).1.icon = app.icon := by
  unfold Application.create_window
  refine ⟨?_, ?_⟩ <;> (repeat' split) <;> rfl

/-- A successful resume leaves the application at exactly the state the
create-window call produced. -/
theorem resumed_ok_eq (app app2 : Application) (env : CreateWindowEnv)
    (h : app.resumed env = Outcome.ok app2) :
    app2 = (app.create_window env).1 := by
  unfold Application.resumed at h
  rcases hp : app.create_window env with ⟨a, o⟩
  rw [hp] at h
  cases o with
  | ok wid =>
    simp only [Outcome.ok.injEq] at h
    exact h.symm
  | err e => simp at h
  | panic m => simp at h

/-- Dispatching any window event never touches the icon or the context
slot. -/
theorem window_event_preserves (app : Application) (env : WindowEventEnv)
    (wid : WindowId) (ev : WindowEvent) :
    (app.window_event env wid ev).context = app.context ∧
    (app.window_event env wid ev).icon = app.icon := by
  unfold Application.window_event
  cases mapLookup app.windows wid with
  | none => exact ⟨rfl, rfl⟩
  | some ws =>
    cases ev with
    | focused b => exact ⟨rfl, rfl⟩
    | redrawRequested =>
      cases env.drawResult with
      | error e => exact ⟨rfl, rfl⟩
      | ok u => exact ⟨rfl, rfl⟩
    | closeRequested => exact ⟨rfl, rfl⟩
    | mouseWheel d => exact ⟨rfl, rfl⟩
    | keyboardInput b => cases b with
      | true => exact ⟨rfl, rfl⟩
      | false => exact ⟨rfl, rfl⟩
    | other => exact ⟨rfl, rfl⟩

/-- The idle check never changes the application state. -/
theorem about_to_wait_fst (app : Application) :
    (app.about_to_wait).1 = app := by
  unfold Application.about_to_wait
  split <;> rfl

/-- The idle check requests exit exactly when the registry reads as
empty. -/
theorem about_to_wait_snd (app : Application) :
    (app.about_to_wait).2 = app.windows.isEmpty := by
  unfold Application.about_to_wait
  cases he : app.windows.isEmpty <;> simp [he]

/-- Inductive invariant of the driven loop: while exit has not been
requested the context is live; once exit is requested the registry is
empty; the context can be gone only after `exiting` ran; and `exiting`
runs only after exit was requested. -/
theorem reachable_inv (s : LoopState) (h : Reachable s) :
    (s.exitRequested = false → s.app.context.isSome = true) ∧
    (s.exitRequested = true → s.app.windows = []) ∧
    (s.app.context = none → s.exited = true) ∧
    (s.exited = true → s.exitRequested = true) := by
  induction h with
  | init ctx icon => simp [Application.construct]
  | step hr hst ih =>
    rename_i s t
    cases hst with
    | resumed env app2 hex hreq hok =>
      have hctx : app2.context = s.app.context := by
        rw [resumed_ok_eq s.app app2 env hok]
        exact (create_window_preserves s.app env).1
      refine ⟨fun _ => ?_, fun hrq => by simp at hrq, fun hco => ?_,
        fun hx => by simp at hx⟩
      · rw [hctx]
        exact ih.1 hreq
      · rw [hctx] at hco
        have hl := ih.1 hreq
        rw [hco] at hl
        simp at hl
    | windowEvent env wid ev hex hreq =>
      have hctx := (window_event_preserves s.app env wid ev).1
      refine ⟨fun _ => ?_, fun hrq => by simp at hrq, fun hco => ?_,
        fun hx => by simp at hx⟩
      · rw [hctx]
        exact ih.1 hreq
      · rw [hctx] at hco
        have hl := ih.1 hreq
        rw [hco] at hl
        simp at hl
    | userEvent ev hex hreq =>
      refine ⟨fun _ => ih.1 hreq, fun hrq => by simp at hrq, fun hco => ?_,
        fun hx => by simp at hx⟩
      have hl := ih.1 hreq
      rw [show (s.app.user_event ev).context = s.app.context from rfl] at hco
      rw [hco] at hl
      simp at hl
    | deviceEvent hex hreq =>
      refine ⟨fun _ => ih.1 hreq, fun hrq => by simp at hrq, fun hco => ?_,
        fun hx => by simp at hx⟩
      have hl := ih.1 hreq
      rw [show (s.app.device_event).context = s.app.context from rfl] at hco
      rw [hco] at hl
      simp at hl
    | aboutToWait hex hreq =>
      refine ⟨fun _ => ?_, fun hrq => ?_, fun hco => ?_,
        fun hx => by simp at hx⟩
      · rw [about_to_wait_fst]
        exact ih.1 hreq
      · rw [about_to_wait_snd] at hrq
        rw [about_to_wait_fst]
        exact List.isEmpty_iff.mp hrq
      · rw [about_to_wait_fst] at hco
        have hl := ih.1 hreq
        rw [hco] at hl
        simp at hl
    | exiting hex hreq =>
      exact ⟨fun hrq => by simp at hrq, fun _ => ih.2.1 hreq,
        fun _ => rfl, fun _ => rfl⟩

/-! The claims. -/

/-- C1: the idle check (`about_to_wait`) requests event-loop termination
if and only if the window registry is empty at the time of the check, and
it never changes the application state. -/
theorem about_to_wait_exit_iff_empty (app : Application) :
    ((app.about_to_wait).2 = true ↔ app.windows = []) ∧
    (app.about_to_wait).1 = app := by
  unfold Application.about_to_wait
  rcases app.windows with _ | ⟨hd, tl⟩ <;> simp

/-- C2: for a window id absent from the registry, `window_event` returns
without panicking and leaves the whole application state (icon, registry,
context) unchanged, whatever the event. -/
theorem window_event_absent_noop (app : Application) (env : WindowEventEnv)
    (wid : WindowId) (ev : WindowEvent)
    (h : mapLookup app.windows wid = none) :
    app.window_event env wid ev = app :=
  window_event_absent app env wid ev h

/-- Witness for C2 at a concrete state: the fresh application has no
window with id 5, and a close event for id 5 changes nothing. -/
theorem window_event_absent_noop_witness :
    mapLookup app0.windows 5 = none ∧
    app0.window_event wenvOk 5 WindowEvent.closeRequested = app0 :=
  ⟨rfl, window_event_absent_noop app0 wenvOk 5 WindowEvent.closeRequested rfl⟩

/-- C9: `user_event` only logs; every user event leaves the entire
application state unchanged and cannot panic. -/
theorem user_event_noop (app : Application) (ev : UserEvent) :
    app.user_event ev = app :=
  rfl

/-- C7: when the draw operation fails while handling a redraw-requested
event for a registered window, the handler only logs: the record stays in
the registry and the whole application state is unchanged, so a later
redraw can be attempted. -/
theorem redraw_failure_keeps_window (app : Application)
    (env : WindowEventEnv) (wid : WindowId) (ws : WindowState) (e : ErrMsg)
    (hlook : mapLookup app.windows wid = some ws)
    (hdraw : env.drawResult = Except.error e) :
    app.window_event env wid WindowEvent.redrawRequested = app ∧
    mapLookup
      (app.window_event env wid WindowEvent.redrawRequested).windows wid
      = some ws := by
  have hmain : app.window_event env wid WindowEvent.redrawRequested = app := by
    unfold Application.window_event
    rw [hlook, hdraw]
  exact ⟨hmain, by rw [hmain, hlook]⟩

/-- Witness for C7 at a concrete state: one registered window, a failing
draw; the state is unchanged and the record is still present. -/
theorem redraw_failure_keeps_window_witness :
    app1w.window_event wenvFail 1 WindowEvent.redrawRequested = app1w ∧
    mapLookup
      (app1w.window_event wenvFail 1 WindowEvent.redrawRequested).windows 1
      = some ws1 :=
  redraw_failure_keeps_window app1w wenvFail 1 ws1 "present rejected" rfl rfl

/-- C6 fails on the code: at a concrete environment where every prior
step succeeds but `set_cursor_hittest(false)` fails, `create_window`
panics (the `.expect` at src/main.rs:104-106 aborts the process) and does
not return an error value to its caller. -/
theorem create_window_hittest_counterexample :
    (app0.create_window cenvHitFail).2
      = Outcome.panic "Failed to disable cursor hit test" ∧
    ((app0.create_window cenvHitFail).2).isErr = false :=
  ⟨rfl, rfl⟩

/-- C6 amended: whenever the window is created but disabling the cursor
hit test fails, `create_window` panics with the `.expect` message —
aborting the process — instead of returning an error, and the state is
not modified before the abort. -/
theorem create_window_hittest_panics (app : Application)
    (env : CreateWindowEnv) (w : Window) (e : ErrMsg)
    (hcw : env.createWindowResult = Except.ok w)
    (hht : env.setCursorHittestResult = Except.error e) :
    app.create_window env
      = (app, Outcome.panic "Failed to disable cursor hit test") := by
  unfold Application.create_window
  rw [hcw, hht]

/-- Witness for the amended C6 at a concrete environment. -/
theorem create_window_hittest_panics_witness :
    app0.create_window cenvHitFail
      = (app0, Outcome.panic "Failed to disable cursor hit test") :=
  create_window_hittest_panics app0 cenvHitFail win1 "hit test rejected"
    rfl rfl

/-- C3: when `create_window` returns the id `wid` (fresh, as the
windowing collaborator guarantees ids are never reused while registered),
the new registry holds an entry for `wid`, and removing that entry gives
back exactly the prior registry — so the result is the prior registry
plus one new entry, with nothing replaced or dropped. -/
theorem create_window_ok_inserts (app : Application) (env : CreateWindowEnv)
    (wid : WindowId) (app2 : Application)
    (hfresh : mapLookup app.windows wid = none)
    (h : app.create_window env = (app2, Outcome.ok wid)) :
    (mapLookup app2.windows wid).isSome = true ∧
    mapRemove app2.windows wid = app.windows := by
  unfold Application.create_window at h
  cases hcw : env.createWindowResult with
  | error e => simp [hcw] at h
  | ok w =>
    simp only [hcw] at h
    cases hht : env.setCursorHittestResult with
    | error e => simp [hht] at h
    | ok u =>
      simp only [hht] at h
      cases hws : WindowState.new env app w with
      | panic m => simp [hws] at h
      | err e => simp [hws] at h
      | ok ws =>
        simp only [hws, Prod.mk.injEq, Outcome.ok.injEq] at h
        obtain ⟨happ, hid⟩ := h
        subst hid
        subst happ
        constructor
        · simp [mapInsert, mapLookup]
        · show mapRemove (mapInsert app.windows ws.window.id ws)
            ws.window.id = app.windows
          rw [mapInsert, mapRemove_of_lookup_none hfresh,
            mapRemove_cons_self]
          exact mapRemove_of_lookup_none hfresh

/-- Witness for C3 at a concrete run where every external call
succeeds: id 1 is fresh, gets registered, and removing it restores the
empty registry. -/
theorem create_window_ok_inserts_witness :
    (mapLookup (app0.create_window cenvOk).1.windows 1).isSome = true ∧
    mapRemove (app0.create_window cenvOk).1.windows 1 = app0.windows :=
  create_window_ok_inserts app0 cenvOk 1 (app0.create_window cenvOk).1
    rfl rfl

/-- C4: a close-requested event for id `wid` removes exactly `wid` from
the registry (every other record's lookup is unchanged, the icon and
context are untouched), the removed id no longer resolves, and a second
close-requested event for the now-absent id is a no-op. -/
theorem close_requested_removes (app : Application)
    (env env2 : WindowEventEnv) (wid : WindowId) :
    (app.window_event env wid WindowEvent.closeRequested).windows
      = mapRemove app.windows wid ∧
    mapLookup (app.window_event env wid WindowEvent.closeRequested).windows
        wid = none ∧
    (∀ k, ¬k = wid →
      mapLookup (app.window_event env wid WindowEvent.closeRequested).windows
          k = mapLookup app.windows k) ∧
    (app.window_event env wid WindowEvent.closeRequested).icon = app.icon ∧
    (app.window_event env wid WindowEvent.closeRequested).context
      = app.context ∧
    (app.window_event env wid WindowEvent.closeRequested).window_event env2
        wid WindowEvent.closeRequested
      = app.window_event env wid WindowEvent.closeRequested := by
  have hmain := window_event_close_eq app env wid
  refine ⟨by rw [hmain], ?_, ?_, by rw [hmain], by rw [hmain], ?_⟩
  · rw [hmain]
    exact mapLookup_mapRemove_self app.windows wid
  · intro k hk
    rw [hmain]
    exact mapLookup_mapRemove_ne app.windows wid k hk
  · apply window_event_absent
    rw [hmain]
    exact mapLookup_mapRemove_self app.windows wid

/-- C5: a window whose physical width or height is zero at creation time
makes `WindowState::new` fail with the surface-sizing error, and
`create_window` propagates that error leaving the registry (and the rest
of the state) exactly as it was. -/
theorem zero_size_window_fails (app : Application) (env : CreateWindowEnv)
    (w : Window) (c : Context) (srf : Surface)
    (hctx : app.context = some c)
    (hsrf : env.surfaceNewResult = Except.ok srf)
    (hzero : w.innerWidth = 0 ∨ w.innerHeight = 0)
    (hcw : env.createWindowResult = Except.ok w)
    (hht : env.setCursorHittestResult = Except.ok ()) :
    WindowState.new env app w = Outcome.err "Failed to resize inner buffer" ∧
    app.create_window env
      = (app, Outcome.err "Failed to resize inner buffer") := by
  have hws : WindowState.new env app w
      = Outcome.err "Failed to resize inner buffer" := by
    unfold WindowState.new
    simp only [hctx, hsrf]
    rw [if_pos hzero]
  refine ⟨hws, ?_⟩
  unfold Application.create_window
  simp only [hcw, hht, hws]

/-- Witness for C5 at a concrete window of inner size 0×20: creation
fails with the sizing error and the registry stays empty. -/
theorem zero_size_window_fails_witness :
    WindowState.new cenvZero app0 win0sz
      = Outcome.err "Failed to resize inner buffer" ∧
    app0.create_window cenvZero
      = (app0, Outcome.err "Failed to resize inner buffer") :=
  zero_size_window_fails app0 cenvZero win0sz ctx0 srf1 rfl rfl
    (Or.inl rfl) rfl rfl

/-- C10: for a window with nonzero physical dimensions,
`WindowState::new` returns Ok even when the post-creation surface resize
fails — the `Result` of `surface.resize` is discarded at
src/main.rs:275-277 — and `create_window` then registers the record. -/
theorem resize_failure_ignored (app : Application) (env : CreateWindowEnv)
    (w : Window) (c : Context) (srf : Surface) (e : ErrMsg)
    (hctx : app.context = some c)
    (hsrf : env.surfaceNewResult = Except.ok srf)
    (hw : ¬w.innerWidth = 0) (hh : ¬w.innerHeight = 0)
    (hrs : env.surfaceResizeResult = Except.error e)
    (hcw : env.createWindowResult = Except.ok w)
    (hht : env.setCursorHittestResult = Except.ok ()) :
    WindowState.new env app w = Outcome.ok ⟨srf, w⟩ ∧
    (app.create_window env).2 = Outcome.ok w.id ∧
    mapLookup (app.create_window env).1.windows w.id = some ⟨srf, w⟩ := by
  have hnz : ¬(w.innerWidth = 0 ∨ w.innerHeight = 0) := by
    rintro (h1 | h2)
    exacts [hw h1, hh h2]
  have hws : WindowState.new env app w = Outcome.ok ⟨srf, w⟩ := by
    unfold WindowState.new
    simp only [hctx, hsrf]
    rw [if_neg hnz, hrs]
  have hcwres : app.create_window env
      = ({ app with windows := mapInsert app.windows w.id ⟨srf, w⟩ },
         Outcome.ok w.id) := by
    unfold Application.create_window
    simp only [hcw, hht, hws]
  refine ⟨hws, by rw [hcwres], ?_⟩
  rw [hcwres]
  simp [mapInsert, mapLookup]

/-- Witness for C10 at a concrete window of inner size 10×20 whose
resize call fails: the record is still built and registered. -/
theorem resize_failure_ignored_witness :
    WindowState.new cenvResizeFail app0 win1 = Outcome.ok ⟨srf1, win1⟩ ∧
    (app0.create_window cenvResizeFail).2 = Outcome.ok win1.id ∧
    mapLookup (app0.create_window cenvResizeFail).1.windows win1.id
      = some ⟨srf1, win1⟩ :=
  resize_failure_ignored app0 cenvResizeFail win1 ctx0 srf1
    "resize rejected" rfl rfl (by decide) (by decide) rfl rfl rfl

/-- C8: in every loop state reachable from a freshly constructed
application, the drawing context is live whenever the registry is
non-empty, and the context is gone only in states where `exiting` has
run — which happens only after the loop was asked to stop with the
registry already empty. -/
theorem context_outlives_windows (s : LoopState) (h : Reachable s) :
    (s.app.windows ≠ [] → s.app.context.isSome = true) ∧
    (s.app.context = none →
      s.exited = true ∧ s.exitRequested = true ∧ s.app.windows = []) := by
  obtain ⟨h1, h2, h3, h4⟩ := reachable_inv s h
  constructor
  · intro hne
    cases hrq : s.exitRequested with
    | false => exact h1 hrq
    | true => exact absurd (h2 hrq) hne
  · intro hco
    have he := h3 hco
    have hq := h4 he
    exact ⟨he, hq, h2 hq⟩

/-- Witness for C8 at the initial loop state, which is reachable by
construction. -/
theorem context_outlives_windows_witness :
    (loop0.app.windows ≠ [] → loop0.app.context.isSome = true) ∧
    (loop0.app.context = none →
      loop0.exited = true ∧ loop0.exitRequested = true ∧
      loop0.app.windows = []) :=
  context_outlives_windows loop0 (Reachable.init ctx0 icon0)

end Overlay
